import Mathlib

/-!
Shallow embedding of the ranking / similarity engine of the
`craft-astradb-quality-tool` repository, together with proofs of the
specification's claims about it.

Python strings are modelled as `List Char`; Python floats as `ℚ` (exact
arithmetic) except where a square root is genuinely taken, which lands in `ℝ`.
The AstraDB collection and the sentence-transformers embedder are external
collaborators; they are modelled as explicit function-valued parameters, so
that every theorem quantifies over all possible collaborator behaviours.
-/

namespace AstraQuality

/-! ### Character-list string primitives (Python `str` operations) -/

/-- Number of non-overlapping occurrences of `k` in the text, scanning left to
right and skipping the matched region — Python `text.count(k)` for `k ≠ ""`. -/
def countOccsAux (k : List Char) : List Char → Nat
  | [] => 0
  | c :: rest =>
    if k.isPrefixOf (c :: rest) then 1 + countOccsAux k (rest.drop (k.length - 1))
    else countOccsAux k rest
termination_by t => t.length
decreasing_by
  · simp only [List.length_drop, List.length_cons]
    omega
  · simp only [List.length_cons]
    omega

/-- Python `text.count(k)`: for the empty pattern Python returns `len(text)+1`. -/
def countOccs (k t : List Char) : Nat :=
  if k = [] then t.length + 1 else countOccsAux k t

/-- Index of the first occurrence of `k` in the text, if any —
Python `text.find(k)` restricted to the found case. -/
def findSub (k : List Char) : List Char → Option Nat
  | [] => if k.isPrefixOf ([] : List Char) then some 0 else none
  | c :: rest =>
    if k.isPrefixOf (c :: rest) then some 0 else (findSub k rest).map (· + 1)

/-- Python `k in text` (substring containment). -/
def containsSub (k t : List Char) : Bool :=
  (findSub k t).isSome

/-- Python `text.split()`: split on whitespace runs, dropping empty chunks.
`cur` is the reversed chunk currently being accumulated. -/
def splitWsAux : List Char → List Char → List (List Char)
  | [], cur => if cur = [] then [] else [cur.reverse]
  | c :: rest, cur =>
    if c.isWhitespace then
      if cur = [] then splitWsAux rest [] else cur.reverse :: splitWsAux rest []
    else splitWsAux rest (c :: cur)

/-- Python `text.split()`. -/
def splitWs (t : List Char) : List (List Char) :=
  splitWsAux t []

/-- `text if case_sensitive else text.lower()`. -/
def foldCase (caseSensitive : Bool) (t : List Char) : List Char :=
  if caseSensitive then t else t.map Char.toLower

/-! ### Keyword search (`src/search/keyword.py`) -/

/-- A document as the keyword-search layer sees it: the fields present on the
record, with their values already rendered to text (Python `str(doc[field])`). -/
structure KDoc where
  fieldsMap : List (String × List Char)
deriving DecidableEq

/-- `doc[field]` when `field in doc`, else `None`. -/
def getField (d : KDoc) (f : String) : Option (List Char) :=
  d.fieldsMap.lookup f

/-- The `field_weights` table of `KeywordSearch._calculate_relevance`,
with `.get(field, 1.0)` default. -/
def fieldWeight (f : String) : ℚ :=
  if f = "question" then 2
  else if f = "answer" then 1
  else if f = "category" then 1/2
  else if f = "source_file" then 3/10
  else 1

/-- One iteration of the scoring loop of `_calculate_relevance`: the weighted
contribution of a single field (0 when the field is absent, empty, or has no
occurrence of the keyword). -/
def fieldScore (doc : KDoc) (kL : List Char) (caseSensitive : Bool) (f : String) : ℚ :=
  match getField doc f with
  | none => 0
  | some text =>
    if text = [] then 0
    else
      let tL := foldCase caseSensitive text
      let occurrences := countOccs kL tL
      if 0 < occurrences then
        let weight := fieldWeight f
        let occurrenceScore : ℚ := min ((occurrences : ℚ) * 10) 50
        let posn := (findSub kL tL).getD 0
        let positionScore : ℚ := max 0 (20 - ((posn : ℚ) / (text.length : ℚ) * 20))
        let exactMatchBonus : ℚ := if kL ∈ splitWs tL then 15 else 0
        (occurrenceScore + positionScore + exactMatchBonus) * weight
      else 0

/-- `KeywordSearch._calculate_relevance`: sum the weighted field scores over the
requested fields, then cap the total at 100. -/
def calculateRelevance (doc : KDoc) (keyword : List Char) (fields : List String)
    (caseSensitive : Bool) : ℚ :=
  let kL := foldCase caseSensitive keyword
  min (fields.foldl (fun acc f => acc + fieldScore doc kL caseSensitive f) 0) 100

/-- The client-side binary match gate of `KeywordSearch.search`: some requested
field is present, truthy (non-empty), and contains the (case-folded) keyword as
a substring. -/
def matchesKeyword (d : KDoc) (keyword : List Char) (fields : List String)
    (caseSensitive : Bool) : Bool :=
  fields.any (fun f =>
    match getField d f with
    | some text => !text.isEmpty && containsSub (foldCase caseSensitive keyword) (foldCase caseSensitive text)
    | none => false)

/-- The match-and-score phase of `KeywordSearch.search`: keep the documents that
pass the gate, in store order, and pair each with its relevance score. -/
def matchingScored (allDocs : List KDoc) (keyword : List Char) (fields : List String)
    (caseSensitive : Bool) : List (KDoc × ℚ) :=
  (allDocs.filter (fun d => matchesKeyword d keyword fields caseSensitive)).map
    (fun d => (d, calculateRelevance d keyword fields caseSensitive))

/-- Stable descending insertion: the new element goes in front of the first
element whose score it meets or exceeds, so an earlier-listed element keeps its
place ahead of equal scores. -/
def insertDesc (x : KDoc × ℚ) : List (KDoc × ℚ) → List (KDoc × ℚ)
  | [] => [x]
  | y :: ys => if y.2 ≤ x.2 then x :: y :: ys else y :: insertDesc x ys

/-- Stable sort by descending score — the behaviour of Python's stable
`list.sort(key=..., reverse=True)`. -/
def sortDesc : List (KDoc × ℚ) → List (KDoc × ℚ)
  | [] => []
  | x :: xs => insertDesc x (sortDesc xs)

/-- `fields = fields or ['question', 'answer']` (a `None` argument is modelled
as the empty list, which Python's `or` treats the same way). -/
def effectiveFields (fields : List String) : List String :=
  if fields.isEmpty then ["question", "answer"] else fields

/-- `KeywordSearch.search` after the store fetch: `allDocs` is the candidate
list the store returned; gate, score, sort descending (stable), truncate. -/
def kwSearch (allDocs : List KDoc) (keyword : List Char) (fields : List String)
    (caseSensitive : Bool) (limit : Nat) : List (KDoc × ℚ) :=
  (sortDesc (matchingScored allDocs keyword (effectiveFields fields) caseSensitive)).take limit

/-! ### Vector mathematics (`SimilaritySearch._cosine_similarity`) -/

/-- `sum(a * b for a, b in zip(vec1, vec2))` — note that `zip` silently stops at
the shorter vector. -/
def dotList (vec1 vec2 : List ℚ) : ℚ :=
  ((vec1.zip vec2).map (fun p => p.1 * p.2)).sum

/-- `sum(a * a for a in vec)`. -/
def sumSq (vec : List ℚ) : ℚ :=
  (vec.map (fun a => a * a)).sum

/-- `math.sqrt(sum(a * a for a in vec))`. -/
noncomputable def magnitude (vec : List ℚ) : ℝ :=
  Real.sqrt ((sumSq vec : ℚ) : ℝ)

/-- `SimilaritySearch._cosine_similarity`: returns 0.0 when either magnitude is
zero, else the dot product over the product of the magnitudes. There is no
length check anywhere in the function. -/
noncomputable def cosineSimilarity (vec1 vec2 : List ℚ) : ℝ :=
  if magnitude vec1 = 0 ∨ magnitude vec2 = 0 then 0
  else ((dotList vec1 vec2 : ℚ) : ℝ) / (magnitude vec1 * magnitude vec2)

/-! ### Similarity search (`src/search/similarity.py`)

The AstraDB collection is an external collaborator; a `Store` bundles the three
collection operations the similarity layer uses, as arbitrary functions. -/

/-- The filter dictionary built by `search_by_vector` (`category`,
`source_file`, `_id: {$ne: exclude_id}` entries, each optional). -/
structure VecFilter where
  category : Option String
  source : Option String
  excludeId : Option String
deriving DecidableEq

/-- A candidate document as returned by the store's vector-sorted `find`, with
the optional `$similarity` value the store attaches. -/
structure RawDoc where
  id : String
  question : List Char
  answer : List Char
  sim : Option ℚ
deriving DecidableEq

/-- A result of `search_by_vector`: the store document with the
`similarity_score` field attached. -/
structure ScoredDoc where
  doc : RawDoc
  score : ℚ
deriving DecidableEq

/-- A document as projected by the duplicate scan
(`_id`, `question`, `$vector`). -/
structure ScanDoc where
  id : String
  question : List Char
  vec : Option (List ℚ)
deriving DecidableEq

/-- The error kinds the similarity layer raises (`RuntimeError` when not
connected, `ValueError` for a missing document / missing embedding). -/
inductive SimErr where
  | notConnected : SimErr
  | notFound : String → SimErr
  | missingVector : String → SimErr
deriving DecidableEq

/-- The store collaborator: connection state, `find_one` projected on
`$vector` (`none` = no document, `some none` = document without a vector), the
vector-sorted `find` with `include_similarity`, and the plain scan `find` used
by the duplicate finder (argument = optional `sample_size`). -/
structure Store where
  connected : Bool
  findOneVec : String → Option (Option (List ℚ))
  vectorFind : List ℚ → VecFilter → Nat → List RawDoc
  scanDocs : Option Nat → List ScanDoc

/-- `SimilaritySearch.search_by_vector`: build the filter, ask the store for
vector-ordered candidates, keep those whose `$similarity` (default 0) is at
least the threshold, attaching it as `similarity_score`. -/
def searchByVector (st : Store) (queryVector : List ℚ) (threshold : ℚ) (limit : Nat)
    (category source excludeId : Option String) : Except SimErr (List ScoredDoc) :=
  if st.connected = false then .error .notConnected
  else
    let results := st.vectorFind queryVector ⟨category, source, excludeId⟩ limit
    .ok (results.filterMap (fun d =>
      let similarity := d.sim.getD 0
      if threshold ≤ similarity then some ⟨d, similarity⟩ else none))

/-- `SimilaritySearch.find_similar_to_document`: fetch the source document's
vector, failing when the document or its vector is absent, then delegate to
`search_by_vector` excluding the source document's own id. -/
def findSimilarToDocument (st : Store) (documentId : String) (threshold : ℚ)
    (limit : Nat) (category : Option String) : Except SimErr (List ScoredDoc) :=
  if st.connected = false then .error .notConnected
  else
    match st.findOneVec documentId with
    | none => .error (.notFound documentId)
    | some none => .error (.missingVector documentId)
    | some (some v) => searchByVector st v threshold limit category none (some documentId)

/-- A duplicate group as emitted by `find_potential_duplicates`. -/
structure DupGroup where
  primaryId : String
  primaryQuestion : List Char
  duplicates : List ScoredDoc
  count : Nat
deriving DecidableEq

/-- All identifiers a group mentions: its primary plus its duplicate list. -/
def groupIds (g : DupGroup) : List String :=
  g.primaryId :: g.duplicates.map (fun s => s.doc.id)

/-- The scan loop of `find_potential_duplicates`: iterate the scanned documents,
skip ids already processed, otherwise run the per-document similarity search;
on a non-empty result emit a group and mark the primary and every matched id as
processed. -/
def dupLoop (st : Store) (threshold : ℚ) (limitPerQuery : Nat) :
    List ScanDoc → List String → Except SimErr (List DupGroup)
  | [], _ => .ok []
  | d :: rest, processed =>
    if d.id ∈ processed then dupLoop st threshold limitPerQuery rest processed
    else
      match findSimilarToDocument st d.id threshold limitPerQuery none with
      | .error e => .error e
      | .ok similar =>
        if similar.isEmpty then dupLoop st threshold limitPerQuery rest processed
        else
          match dupLoop st threshold limitPerQuery rest
              (processed ++ d.id :: similar.map (fun s => s.doc.id)) with
          | .error e => .error e
          | .ok gs => .ok (⟨d.id, d.question, similar, similar.length + 1⟩ :: gs)

/-- `SimilaritySearch.find_potential_duplicates`. -/
def findPotentialDuplicates (st : Store) (threshold : ℚ) (limitPerQuery : Nat)
    (sampleSize : Option Nat) : Except SimErr (List DupGroup) :=
  if st.connected = false then .error .notConnected
  else dupLoop st threshold limitPerQuery (st.scanDocs sampleSize) []

/-- Every identifier mentioned by any group of a successful run (the list is
empty on error). -/
def dupIdsOfRun (r : Except SimErr (List DupGroup)) : List String :=
  match r with
  | .ok gs => (gs.map groupIds).flatten
  | .error _ => []

/-! ### Per-candidate enhancement step of `search_by_text` -/

/-- `'N/A'`. -/
def nAChars : List Char := ['N', '/', 'A']

/-- `'unanswered'`. -/
def unansweredChars : List Char :=
  ['u', 'n', 'a', 'n', 's', 'w', 'e', 'r', 'e', 'd']

/-- The per-candidate loop body of `SimilaritySearch.search_by_text`: compute
`question_similarity` and `answer_similarity` against the query embedding,
skipping the embedder (sub-similarity 0.0) when the question is empty/`"N/A"`
or the answer is empty/`"N/A"`/`"unanswered"`, and set `overall_similarity` to
the store-reported `similarity_score`. Besides the enhanced scores it returns
the texts actually passed to the embedder, question calls and answer calls
separately, so that "the embedder was not invoked on the answer" is a statement
about the model. -/
noncomputable def enhanceDoc (embed : List Char → List ℚ) (queryEmbedding : List ℚ)
    (d : ScoredDoc) : (ℝ × ℝ × ℚ) × List (List Char) × List (List Char) :=
  let question := d.doc.question
  let answer := d.doc.answer
  let qPart : ℝ × List (List Char) :=
    if question ≠ [] ∧ question ≠ nAChars then
      (cosineSimilarity queryEmbedding (embed question), [question])
    else (0, [])
  let aPart : ℝ × List (List Char) :=
    if answer ≠ [] ∧ answer ∉ [nAChars, unansweredChars, ([] : List Char)] then
      (cosineSimilarity queryEmbedding (embed answer), [answer])
    else (0, [])
  ((qPart.1, aPart.1, d.score), qPart.2, aPart.2)

/-- `question_similarity` of an enhanced candidate. -/
noncomputable def questionSimilarityOf (r : (ℝ × ℝ × ℚ) × List (List Char) × List (List Char)) : ℝ :=
  r.1.1

/-- `answer_similarity` of an enhanced candidate. -/
noncomputable def answerSimilarityOf (r : (ℝ × ℝ × ℚ) × List (List Char) × List (List Char)) : ℝ :=
  r.1.2.1

/-- The texts the enhancement step passed to the embedder for the answer field. -/
def answerEmbedCallsOf (r : (ℝ × ℝ × ℚ) × List (List Char) × List (List Char)) :
    List (List Char) :=
  r.2.2

/-! ### `DatabaseOperations.count_documents` (`src/db/operations.py`) -/

/-- `DatabaseOperations.count_documents`: default the filter to `{}`, call the
store's `count_documents` with `upper_bound=1000`; any store exception
(including the too-many-documents error raised when the bound is exceeded) is
caught and turned into the sentinel `-1`. The store collaborator is the
function argument: filter and upper bound in, count or exception out. -/
def countDocuments (storeCount : List (String × String) → Nat → Except String Nat)
    (filt : Option (List (String × String))) : Int :=
  match storeCount (filt.getD []) 1000 with
  | .ok n => (n : Int)
  | .error _ => -1

/-! ### The clustering invariant of the duplicate finder -/

/-- Invariant of the duplicate-scan loop relative to an already-processed id
set: each group's primary was unprocessed when the group was emitted, and all
ids the group mentions are processed from then on. -/
def GroupsOk : List String → List DupGroup → Prop
  | _, [] => True
  | processed, g :: gs => g.primaryId ∉ processed ∧ GroupsOk (processed ++ groupIds g) gs

/-! ### Concrete collaborator instances used to exercise the theorems -/

/-- A store candidate: document `B`, reported by the store at native
similarity 0.95. -/
def demoDocB : RawDoc := ⟨"B", [], [], some (19/20)⟩

/-- A three-document store: `B`'s vector is within 0.95 of both `A`'s and
`C`'s, while `A` and `C` are not similar to each other. The vector-sorted
`find` honours the `_id $ne` exclusion filter and the limit (it returns at
most one candidate). -/
def demoStore : Store where
  connected := true
  findOneVec := fun id =>
    if id = "A" then some (some [1, 0])
    else if id = "B" then some (some [1, 1])
    else if id = "C" then some (some [0, 1])
    else none
  vectorFind := fun qv fd _limit =>
    if fd.excludeId = some "B" then []
    else if qv = [1, 0] ∨ qv = [0, 1] then [demoDocB]
    else []
  scanDocs := fun _ =>
    [⟨"A", [], some [1, 0]⟩, ⟨"B", [], some [1, 1]⟩, ⟨"C", [], some [0, 1]⟩]

/-- The two groups `find_potential_duplicates` emits on `demoStore` at
threshold 0.90: document `B` is claimed by `A`'s group and reappears in `C`'s. -/
def demoGroups : List DupGroup :=
  [⟨"A", [], [⟨demoDocB, 19/20⟩], 2⟩, ⟨"C", [], [⟨demoDocB, 19/20⟩], 2⟩]

/-- A store whose vector-sorted `find` reports native similarities
0.98, 0.91 and 0.60 — the spec's `search_by_vector` scenario. -/
def stC3 : Store where
  connected := true
  findOneVec := fun _ => none
  vectorFind := fun _ _ _ =>
    [⟨"a", [], [], some (49/50)⟩, ⟨"b", [], [], some (91/100)⟩, ⟨"c", [], [], some (3/5)⟩]
  scanDocs := fun _ => []

/-- The single surviving result of the 0.95-threshold scenario on `stC3`. -/
def rC3 : ScoredDoc := ⟨⟨"a", [], [], some (49/50)⟩, 49/50⟩

/-- A store holding one document, `novec`, that has no embedding vector, and
nothing else. -/
def stC4 : Store where
  connected := true
  findOneVec := fun id => if id = "novec" then some none else none
  vectorFind := fun _ _ _ => []
  scanDocs := fun _ => []

/-- A document whose only field is `question = "hi"`. -/
def d6 : KDoc := ⟨[("question", ['h', 'i'])]⟩

/-- A keyword, `"xy"`, occurring nowhere in `d6`. -/
def kw6 : List Char := ['x', 'y']

/-- A candidate whose answer field is the sentinel `"unanswered"`. -/
def d9 : ScoredDoc := ⟨⟨"X", ['q'], unansweredChars, some 1⟩, 1⟩

/-- A store count collaborator that reports 7 matching documents. -/
def sc10 : List (String × String) → Nat → Except String Nat := fun _ _ => .ok 7

/-! ## Theorems -/

/-! ### Relevance scorer bounds -/

lemma fieldWeight_pos (f : String) : 0 < fieldWeight f := by
  unfold fieldWeight
  repeat' split
  all_goals norm_num

lemma fieldScore_nonneg (doc : KDoc) (kL : List Char) (cs : Bool) (f : String) :
    0 ≤ fieldScore doc kL cs f := by
  unfold fieldScore
  cases h : getField doc f with
  | none => exact le_refl 0
  | some text =>
    by_cases ht : text = []
    · simp [ht]
    · simp only [if_neg ht]
      by_cases hocc : 0 < countOccs kL (foldCase cs text)
      · simp only [if_pos hocc]
        have h1 : (0 : ℚ) ≤ min ((countOccs kL (foldCase cs text) : ℚ) * 10) 50 :=
          le_min (by positivity) (by norm_num)
        have h2 : (0 : ℚ) ≤
            max 0 (20 - (((findSub kL (foldCase cs text)).getD 0 : ℚ) / (text.length : ℚ) * 20)) :=
          le_max_left 0 _
        have h3 : (0 : ℚ) ≤ (if kL ∈ splitWs (foldCase cs text) then (15 : ℚ) else 0) := by
          split <;> norm_num
        exact mul_nonneg (add_nonneg (add_nonneg h1 h2) h3) (fieldWeight_pos f).le
      · simp [hocc]

lemma foldl_fieldScore_nonneg (doc : KDoc) (kL : List Char) (cs : Bool) :
    ∀ (fields : List String) (acc : ℚ), 0 ≤ acc →
      0 ≤ fields.foldl (fun a f => a + fieldScore doc kL cs f) acc := by
  intro fields
  induction fields with
  | nil => intro acc hacc; simpa using hacc
  | cons f fs ih =>
    intro acc hacc
    exact ih _ (add_nonneg hacc (fieldScore_nonneg doc kL cs f))

/-- Claim C5: for every document, keyword, field set and case-sensitivity flag,
`_calculate_relevance` returns a value in the closed interval [0, 100]: every
per-field weighted sub-score is non-negative and the summed total is capped at
100. -/
theorem claim_C5_bounds (doc : KDoc) (keyword : List Char) (fields : List String)
    (cs : Bool) :
    0 ≤ calculateRelevance doc keyword fields cs ∧
      calculateRelevance doc keyword fields cs ≤ 100 := by
  unfold calculateRelevance
  exact ⟨le_min (foldl_fieldScore_nonneg doc _ cs fields 0 le_rfl) (by norm_num),
    min_le_right _ _⟩

/-! ### Vector search threshold filter -/

/-- Claim C3: every result `search_by_vector` returns carries the
store-reported native similarity as its `similarity_score`, and that score is
at least the threshold. -/
theorem claim_C3_threshold (st : Store) (queryVector : List ℚ) (threshold : ℚ)
    (limit : Nat) (category source excludeId : Option String) (rs : List ScoredDoc)
    (h : searchByVector st queryVector threshold limit category source excludeId = .ok rs) :
    ∀ r ∈ rs, threshold ≤ r.score ∧ r.score = r.doc.sim.getD 0 := by
  unfold searchByVector at h
  split at h
  · exact absurd h (by simp)
  · rw [Except.ok.injEq] at h
    subst h
    intro r hr
    rw [List.mem_filterMap] at hr
    obtain ⟨d, _, hd⟩ := hr
    simp only [] at hd
    split at hd
    · rename_i hthr
      cases hd
      exact ⟨hthr, rfl⟩
    · exact absurd hd (by simp)

/-- The spec's own scenario: a store reporting native similarities
[0.98, 0.91, 0.60] queried at threshold 0.95 returns exactly the 0.98 result,
whose attached score is the native one and is above the threshold. -/
theorem claim_C3_witness : (19/20 : ℚ) ≤ rC3.score ∧ rC3.score = rC3.doc.sim.getD 0 :=
  claim_C3_threshold stC3 [1] (19/20) 10 none none none [rC3]
    (by norm_num [searchByVector, stC3, rC3, List.filterMap_cons]) rC3 (by simp)

/-! ### Document-driven search error behaviour -/

/-- Claim C4: on a connected store, `find_similar_to_document` fails with the
not-found error when the document is absent and with the missing-vector error
when the document has no embedding; in either situation it does not return an
empty result list. -/
theorem claim_C4_errors (st : Store) (documentId : String) (threshold : ℚ)
    (limit : Nat) (category : Option String) (hc : st.connected = true) :
    (st.findOneVec documentId = none →
      findSimilarToDocument st documentId threshold limit category =
        .error (.notFound documentId)) ∧
    (st.findOneVec documentId = some none →
      findSimilarToDocument st documentId threshold limit category =
        .error (.missingVector documentId)) ∧
    ((st.findOneVec documentId = none ∨ st.findOneVec documentId = some none) →
      findSimilarToDocument st documentId threshold limit category ≠ .ok []) := by
  unfold findSimilarToDocument
  rw [hc]
  refine ⟨fun h => by rw [h]; rfl, fun h => by rw [h]; rfl, fun h => ?_⟩
  rcases h with h | h <;> rw [h] <;> simp

/-- `find_similar_to_document` on the store whose document `novec` lacks a
vector: it fails with the missing-vector error. -/
theorem claim_C4_witness :
    findSimilarToDocument stC4 "novec" 1 5 none = .error (.missingVector "novec") :=
  (claim_C4_errors stC4 "novec" 1 5 none rfl).2.1 rfl

/-! ### Count sentinel -/

/-- Claim C10: `count_documents` queries the store with upper bound 1000 and
never propagates a store failure: any error (including the
too-many-documents one) becomes the sentinel -1, and a successful count is
returned unchanged and is non-negative. -/
theorem claim_C10_count_sentinel
    (storeCount : List (String × String) → Nat → Except String Nat)
    (filt : Option (List (String × String))) :
    (∀ e, storeCount (filt.getD []) 1000 = .error e →
      countDocuments storeCount filt = -1) ∧
    (∀ n, storeCount (filt.getD []) 1000 = .ok n →
      countDocuments storeCount filt = (n : Int) ∧ 0 ≤ countDocuments storeCount filt) := by
  unfold countDocuments
  constructor
  · intro e he
    rw [he]
  · intro n hn
    rw [hn]
    exact ⟨rfl, Int.ofNat_nonneg n⟩

/-- `count_documents` against a collaborator reporting 7 matches: the result is
7, in particular non-negative. -/
theorem claim_C10_witness : countDocuments sc10 none = (7 : Int) ∧ 0 ≤ countDocuments sc10 none :=
  (claim_C10_count_sentinel sc10 none).2 7 rfl

/-! ### Keyword search: gate, ordering, stability -/

lemma mem_insertDesc {x y : KDoc × ℚ} {l : List (KDoc × ℚ)} :
    y ∈ insertDesc x l ↔ y = x ∨ y ∈ l := by
  induction l with
  | nil => simp [insertDesc]
  | cons z zs ih =>
    unfold insertDesc
    split
    · simp
    · rw [List.mem_cons, List.mem_cons, ih]
      tauto

lemma mem_sortDesc {y : KDoc × ℚ} {l : List (KDoc × ℚ)} :
    y ∈ sortDesc l ↔ y ∈ l := by
  induction l with
  | nil => simp [sortDesc]
  | cons z zs ih =>
    unfold sortDesc
    rw [mem_insertDesc, List.mem_cons, ih]

lemma sorted_insertDesc {x : KDoc × ℚ} {l : List (KDoc × ℚ)}
    (h : l.Pairwise (fun a b => b.2 ≤ a.2)) :
    (insertDesc x l).Pairwise (fun a b => b.2 ≤ a.2) := by
  induction l with
  | nil => simp [insertDesc]
  | cons y ys ih =>
    rw [List.pairwise_cons] at h
    obtain ⟨hy, hys⟩ := h
    unfold insertDesc
    split
    · rename_i hxy
      rw [List.pairwise_cons]
      refine ⟨fun z hz => ?_, List.pairwise_cons.mpr ⟨hy, hys⟩⟩
      rcases List.mem_cons.mp hz with rfl | hz
      · exact hxy
      · exact (hy z hz).trans hxy
    · rename_i hxy
      push_neg at hxy
      rw [List.pairwise_cons]
      refine ⟨fun z hz => ?_, ih hys⟩
      rcases mem_insertDesc.mp hz with rfl | hz
      · exact hxy.le
      · exact hy z hz

lemma sorted_sortDesc (l : List (KDoc × ℚ)) :
    (sortDesc l).Pairwise (fun a b => b.2 ≤ a.2) := by
  induction l with
  | nil => simp [sortDesc]
  | cons x xs ih => exact sorted_insertDesc ih

lemma filter_insertDesc (x : KDoc × ℚ) (l : List (KDoc × ℚ)) (q : ℚ) :
    (insertDesc x l).filter (fun p => p.2 == q) =
      if x.2 = q then x :: l.filter (fun p => p.2 == q)
      else l.filter (fun p => p.2 == q) := by
  induction l with
  | nil =>
    by_cases hx : x.2 = q <;> simp [insertDesc, List.filter_cons, hx]
  | cons y ys ih =>
    unfold insertDesc
    split
    · by_cases hx : x.2 = q <;> simp [List.filter_cons, hx]
    · rename_i hxy
      push_neg at hxy
      rw [List.filter_cons, List.filter_cons, ih]
      by_cases hx : x.2 = q
      · have hy : ¬ y.2 = q := by rw [← hx]; exact ne_of_gt hxy
        simp [hx, hy]
      · by_cases hy : y.2 = q <;> simp [hx, hy]

lemma filter_sortDesc (l : List (KDoc × ℚ)) (q : ℚ) :
    (sortDesc l).filter (fun p => p.2 == q) = l.filter (fun p => p.2 == q) := by
  induction l with
  | nil => simp [sortDesc]
  | cons x xs ih =>
    unfold sortDesc
    rw [filter_insertDesc, List.filter_cons]
    by_cases hx : x.2 = q <;> simp [hx, ih]

lemma filter_take_eq_take_filter {α : Type} (p : α → Bool) :
    ∀ (l : List α) (m : Nat), ∃ n, (l.take m).filter p = (l.filter p).take n := by
  intro l
  induction l with
  | nil => intro m; exact ⟨0, by simp⟩
  | cons x xs ih =>
    intro m
    cases m with
    | zero => exact ⟨0, by simp⟩
    | succ m =>
      obtain ⟨n, hn⟩ := ih m
      by_cases hp : p x
      · exact ⟨n + 1, by simp [List.filter_cons, hp, hn]⟩
      · exact ⟨n, by simp [List.filter_cons, hp, hn]⟩

/-- Claim C6: a document in which the (case-folded) keyword occurs in no
requested field — the binary match gate fails — is absent from the keyword
search result list entirely. -/
theorem claim_C6_gate (allDocs : List KDoc) (keyword : List Char)
    (fields : List String) (cs : Bool) (limit : Nat) (d : KDoc)
    (h : matchesKeyword d keyword (effectiveFields fields) cs = false) :
    d ∉ (kwSearch allDocs keyword fields cs limit).map Prod.fst := by
  intro hmem
  rw [List.mem_map] at hmem
  obtain ⟨p, hp, hfst⟩ := hmem
  unfold kwSearch at hp
  have hp2 : p ∈ sortDesc (matchingScored allDocs keyword (effectiveFields fields) cs) :=
    List.mem_of_mem_take hp
  rw [mem_sortDesc] at hp2
  unfold matchingScored at hp2
  rw [List.mem_map] at hp2
  obtain ⟨d', hd', hpd⟩ := hp2
  rw [List.mem_filter] at hd'
  have : d' = d := by rw [← hfst, ← hpd]
  rw [this] at hd'
  rw [h] at hd'
  exact Bool.false_ne_true hd'.2

/-- The gate on a concrete store: the keyword `"xy"` occurs nowhere in the
document with question `"hi"`, so that document is not among the results. -/
theorem claim_C6_witness : d6 ∉ (kwSearch [d6] kw6 [] false 20).map Prod.fst :=
  claim_C6_gate [d6] kw6 [] false 20 d6 (by decide)

/-- Claim C7: keyword search results are sorted by non-increasing
`relevance_score`, and the sort is stable: for every score value, the results
carrying that score form an initial segment of the gate-surviving candidates
with that score, in the store's original return order. -/
theorem claim_C7_sorted_stable (allDocs : List KDoc) (keyword : List Char)
    (fields : List String) (cs : Bool) (limit : Nat) :
    (kwSearch allDocs keyword fields cs limit).Pairwise (fun a b => b.2 ≤ a.2) ∧
    ∀ q : ℚ, ∃ n : Nat,
      (kwSearch allDocs keyword fields cs limit).filter (fun p => p.2 == q) =
        ((matchingScored allDocs keyword (effectiveFields fields) cs).filter
          (fun p => p.2 == q)).take n := by
  constructor
  · exact (sorted_sortDesc _).sublist (List.take_sublist _ _)
  · intro q
    obtain ⟨n, hn⟩ := filter_take_eq_take_filter (fun p => p.2 == q)
      (sortDesc (matchingScored allDocs keyword (effectiveFields fields) cs)) limit
    exact ⟨n, by rw [kwSearch, hn, filter_sortDesc]⟩

/-! ### Cosine similarity: degenerate vectors and truncation -/

lemma magnitude_nonneg (v : List ℚ) : 0 ≤ magnitude v :=
  Real.sqrt_nonneg _

lemma magnitude_eq_zero_of_all_zero {v : List ℚ} (h : ∀ x ∈ v, x = 0) :
    magnitude v = 0 := by
  have hs : sumSq v = 0 := by
    unfold sumSq
    apply List.sum_eq_zero
    intro y hy
    rw [List.mem_map] at hy
    obtain ⟨x, hx, rfl⟩ := hy
    rw [h x hx]
    ring
  unfold magnitude
  rw [hs]
  simp

/-- Claim C8: for equal-length vectors, a zero-magnitude operand makes
`_cosine_similarity` return exactly 0 — in particular an all-zero vector
does — and the division branch is taken only when both magnitudes are
non-zero, in which case their product is non-zero. -/
theorem claim_C8_zero_magnitude (a b : List ℚ) (_hlen : a.length = b.length) :
    ((∀ x ∈ a, x = 0) → cosineSimilarity a b = 0) ∧
    (magnitude a = 0 ∨ magnitude b = 0 → cosineSimilarity a b = 0) ∧
    (magnitude a ≠ 0 → magnitude b ≠ 0 → magnitude a * magnitude b ≠ 0) := by
  refine ⟨fun h => ?_, fun h => ?_, fun h1 h2 => mul_ne_zero h1 h2⟩
  · unfold cosineSimilarity
    rw [if_pos (Or.inl (magnitude_eq_zero_of_all_zero h))]
  · unfold cosineSimilarity
    rw [if_pos h]

/-- The zero vector `[0]` against `[1]`: cosine similarity is exactly 0. -/
theorem claim_C8_witness : cosineSimilarity [(0 : ℚ)] [(1 : ℚ)] = 0 :=
  (claim_C8_zero_magnitude [0] [1] rfl).1 (by intro x hx; simpa using hx)

lemma magnitude_one : magnitude [(1 : ℚ)] = 1 := by
  unfold magnitude
  rw [show sumSq [(1 : ℚ)] = 1 by norm_num [sumSq]]
  rw [show (((1 : ℚ) : ℝ)) = 1 by norm_cast]
  exact Real.sqrt_one

lemma magnitude_three_four : magnitude [(3 : ℚ), 4] = 5 := by
  unfold magnitude
  rw [show sumSq [(3 : ℚ), 4] = 25 by norm_num [sumSq]]
  rw [show (((25 : ℚ) : ℝ)) = 25 by norm_cast]
  rw [show (25 : ℝ) = 5 ^ 2 by norm_num]
  exact Real.sqrt_sq (by norm_num)

/-- Claim C2 is false on the code: `_cosine_similarity` contains no length
check, so on the mismatched pair `[1]` and `[3, 4]` it does not fail — it
returns the score 3/5, computed from the zip-truncated dot product (the 4 never
enters it) over both full magnitudes. -/
theorem claim_C2_counterexample : cosineSimilarity [(1 : ℚ)] [3, 4] = 3 / 5 := by
  unfold cosineSimilarity
  rw [if_neg (by rw [magnitude_one, magnitude_three_four]; norm_num)]
  rw [magnitude_one, magnitude_three_four]
  rw [show dotList [(1 : ℚ)] [3, 4] = 3 by norm_num [dotList]]
  norm_num

lemma dotList_take (a : List ℚ) : ∀ b : List ℚ, dotList a b = dotList a (b.take a.length) := by
  induction a with
  | nil => intro b; simp [dotList]
  | cons x xs ih =>
    intro b
    cases b with
    | nil => simp [dotList]
    | cons y ys =>
      show x * y + dotList xs ys = x * y + dotList xs (ys.take xs.length)
      rw [ih ys]

/-- Claim C2, amended: on vectors of unequal length `_cosine_similarity` does
not fail; `zip` silently truncates, so (whenever both magnitudes are non-zero)
the result is the dot product of the first vector with the second truncated to
the first's length, divided by the product of both full magnitudes. -/
theorem claim_C2_amended (a b : List ℚ) (h1 : magnitude a ≠ 0) (h2 : magnitude b ≠ 0) :
    cosineSimilarity a b =
      ((dotList a (b.take a.length) : ℚ) : ℝ) / (magnitude a * magnitude b) := by
  unfold cosineSimilarity
  rw [if_neg (not_or.mpr ⟨h1, h2⟩), ← dotList_take]

/-- The amended claim at the mismatched pair `[1]` and `[3, 4]`. -/
theorem claim_C2_amended_witness :
    cosineSimilarity [(1 : ℚ)] [3, 4] =
      ((dotList [(1 : ℚ)] ([3, 4].take 1) : ℚ) : ℝ) /
        (magnitude [(1 : ℚ)] * magnitude [(3 : ℚ), 4]) :=
  claim_C2_amended [1] [3, 4] (by rw [magnitude_one]; norm_num)
    (by rw [magnitude_three_four]; norm_num)

/-! ### Answer-sentinel skip logic of `search_by_text` -/

/-- Claim C9: when a candidate's answer is `""`, `"unanswered"` or `"N/A"`, the
enhancement step of `search_by_text` sets `answer_similarity` to exactly 0 and
passes nothing to the embedder for the answer — all three sentinel answers are
treated identically. -/
theorem claim_C9_answer_skip (embed : List Char → List ℚ) (queryEmbedding : List ℚ)
    (d : ScoredDoc)
    (h : d.doc.answer = [] ∨ d.doc.answer = unansweredChars ∨ d.doc.answer = nAChars) :
    answerSimilarityOf (enhanceDoc embed queryEmbedding d) = 0 ∧
      answerEmbedCallsOf (enhanceDoc embed queryEmbedding d) = [] := by
  have hgate : ¬ (d.doc.answer ≠ [] ∧
      d.doc.answer ∉ [nAChars, unansweredChars, ([] : List Char)]) := by
    rcases h with h | h | h <;> simp [h]
  unfold enhanceDoc answerSimilarityOf answerEmbedCallsOf
  simp only [if_neg hgate]
  exact ⟨trivial, trivial⟩

/-- The skip logic at the concrete candidate whose answer is `"unanswered"`. -/
theorem claim_C9_witness :
    answerSimilarityOf (enhanceDoc (fun _ => []) [] d9) = 0 ∧
      answerEmbedCallsOf (enhanceDoc (fun _ => []) [] d9) = [] :=
  claim_C9_answer_skip (fun _ => []) [] d9 (Or.inr (Or.inl rfl))

/-! ### Duplicate cluster finder -/

lemma groupsOk_not_mem {p : List String} {gs : List DupGroup} {g : DupGroup}
    (h : GroupsOk p gs) (hg : g ∈ gs) : g.primaryId ∉ p := by
  induction gs generalizing p with
  | nil => cases hg
  | cons g1 tl ih =>
    obtain ⟨h1, h2⟩ := h
    rcases List.mem_cons.mp hg with rfl | hmem
    · exact h1
    · intro hp
      exact (ih h2 hmem) (List.mem_append.mpr (Or.inl hp))

lemma groupsOk_pairwise {p : List String} {gs : List DupGroup} (h : GroupsOk p gs) :
    gs.Pairwise (fun g1 g2 => g2.primaryId ∉ groupIds g1) := by
  induction gs generalizing p with
  | nil => exact List.Pairwise.nil
  | cons g1 tl ih =>
    obtain ⟨_, h2⟩ := h
    refine List.Pairwise.cons (fun g2 hg2 hmem => ?_) (ih h2)
    exact (groupsOk_not_mem h2 hg2) (List.mem_append.mpr (Or.inr hmem))

lemma dupLoop_groupsOk (st : Store) (threshold : ℚ) (lim : Nat) :
    ∀ (docs : List ScanDoc) (processed : List String) (gs : List DupGroup),
      dupLoop st threshold lim docs processed = .ok gs → GroupsOk processed gs := by
  intro docs
  induction docs with
  | nil =>
    intro processed gs h
    unfold dupLoop at h
    cases h
    trivial
  | cons d rest ih =>
    intro processed gs h
    unfold dupLoop at h
    split at h
    · exact ih processed gs h
    · rename_i hmem
      split at h
      · exact absurd h (by simp)
      · rename_i similar hfind
        split at h
        · exact ih processed gs h
        · split at h
          · exact absurd h (by simp)
          · rename_i gs' hrec
            rw [Except.ok.injEq] at h
            subst h
            exact ⟨hmem, ih _ gs' hrec⟩

/-- Claim C1, amended: across the groups `find_potential_duplicates` emits, no
identifier appears as the *primary* of more than one group, and a later group's
primary never appeared anywhere in an earlier group; an identifier may,
however, reappear inside a later group's duplicate list (see the
counterexample). -/
theorem claim_C1_amended (st : Store) (threshold : ℚ) (lim : Nat)
    (sampleSize : Option Nat) (gs : List DupGroup)
    (h : findPotentialDuplicates st threshold lim sampleSize = .ok gs) :
    gs.Pairwise (fun g1 g2 => g2.primaryId ∉ groupIds g1) := by
  unfold findPotentialDuplicates at h
  split at h
  · exact absurd h (by simp)
  · exact groupsOk_pairwise (dupLoop_groupsOk st threshold lim _ [] gs h)

/-- The amended claim on the concrete three-document store. -/
theorem claim_C1_amended_witness :
    demoGroups.Pairwise (fun g1 g2 => g2.primaryId ∉ groupIds g1) :=
  claim_C1_amended demoStore (9/10) 5 none demoGroups (by with_unfolding_all rfl)

/-- Claim C1 as stated is false on the code: on `demoStore`,
`find_potential_duplicates` assigns document `B` to `A`'s group and then again
to `C`'s group — the processed-id set only prevents a grouped document from
becoming a later *primary*, while the per-document similarity search excludes
only the current primary, so `B` reappears and the flattened membership list
`["A", "B", "C", "B"]` contains an identifier twice. -/
theorem claim_C1_counterexample :
    ¬ (dupIdsOfRun (findPotentialDuplicates demoStore (9/10) 5 none)).Nodup := by
  have h : findPotentialDuplicates demoStore (9/10) 5 none = .ok demoGroups := by
    with_unfolding_all rfl
  rw [h]
  decide

end AstraQuality
